import Mathlib

/-!
Verification of the Bar/QR code detection pipeline.

Shallow embedding of the core components of the repository:
* `src/utils/performance.py` — `PerformanceMonitor`
* `src/core/camera.py` — `CameraManager`, `ROISelector`
* `src/core/opencv_detector.py` — `OpenCVDetector.detect_codes`

Wall-clock timestamps are modelled as rationals (`ℚ`); machine-level
floating point is not modelled, but none of the verified properties
depends on rounding.  Python's non-reentrant `threading.Lock` is
modelled by passing an explicit `lockHeld` flag: a function that tries
to acquire the lock while the calling thread already holds it blocks
forever, which the embedding renders as `none`.
-/

namespace BarQr

/-! ## PerformanceMonitor (src/utils/performance.py) -/

/-- State of `PerformanceMonitor`.  The fields mirror the Python
attributes set in `__init__`; `monitoring_thread` (never assigned a
thread) and the lock object itself are omitted — lock discipline is
modelled by the `lockHeld` flag threaded through the accessors. -/
structure PerformanceMonitor where
  start_time : ℚ
  frame_times : List ℚ
  last_frame_time : ℚ
  frame_count : ℕ
  detection_count : ℕ
  monitoring : Bool
  deriving Repr, DecidableEq

/-- `PerformanceMonitor.__init__` at wall-clock time `now`. -/
def PerformanceMonitor.init (now : ℚ) : PerformanceMonitor :=
  { start_time := now
    frame_times := []
    last_frame_time := now
    frame_count := 0
    detection_count := 0
    monitoring := false }

/-- `update_fps`: append the current timestamp, increment the frame
counter, and keep only the last 60 frame times
(`self.frame_times[-60:]` when the length exceeds 60). -/
def update_fps (s : PerformanceMonitor) (current_time : ℚ) : PerformanceMonitor :=
  let ft := s.frame_times ++ [current_time]
  let ft := if ft.length > 60 then ft.drop (ft.length - 60) else ft
  { s with frame_times := ft
           frame_count := s.frame_count + 1
           last_frame_time := current_time }

/-- `record_detection_time`: increments the detection counter only. -/
def record_detection_time (s : PerformanceMonitor) : PerformanceMonitor :=
  { s with detection_count := s.detection_count + 1 }

/-- `get_current_fps`.  The body runs under `with self.lock`; if the
calling thread already holds the non-reentrant lock the acquire blocks
forever (`none`).  Otherwise it returns
`(len(frame_times) - 1) / (frame_times[-1] - frame_times[0])` when at
least two samples exist and the span is positive, else `0.0`. -/
def get_current_fps (s : PerformanceMonitor) (lockHeld : Bool) : Option ℚ :=
  if lockHeld then none
  else if s.frame_times.length < 2 then some 0
  else if s.frame_times.getLastD 0 - s.frame_times.headD 0 ≤ 0 then some 0
  else some (((s.frame_times.length - 1 : ℕ) : ℚ) /
    (s.frame_times.getLastD 0 - s.frame_times.headD 0))

/-- The dictionary built by `get_performance_summary`: it has exactly
the keys `fps.current` and `detection.total_detections` — the frame
count is not part of it. -/
structure PerfSummary where
  fps_current : ℚ
  total_detections : ℕ
  deriving Repr, DecidableEq

/-- `get_performance_summary`: acquires `self.lock` and, while holding
it, calls `get_current_fps`, which tries to acquire the same
non-reentrant `threading.Lock` again — so the inner acquire never
returns and the whole call blocks (`none`). -/
def get_performance_summary (s : PerformanceMonitor) (lockHeld : Bool) : Option PerfSummary :=
  if lockHeld then none
  else
    match get_current_fps s true with
    | none => none
    | some fps => some { fps_current := fps, total_detections := s.detection_count }

/-- `reset_stats` at wall-clock time `now`: resets `start_time`, clears
the window and zeroes both counters.  It does not touch `monitoring`. -/
def reset_stats (s : PerformanceMonitor) (now : ℚ) : PerformanceMonitor :=
  { s with start_time := now
           frame_times := []
           frame_count := 0
           detection_count := 0 }

end BarQr

namespace BarQr

/-! ### Claims about PerformanceMonitor -/

/-- **C8.** After every `update_fps` call, the rolling window holds at
most 60 timestamps — exactly `min (old + 1) 60` of them, obtained by
dropping the oldest entries of the appended list — and the frame
counter has grown by exactly one. -/
theorem update_fps_window_invariant (s : PerformanceMonitor) (t : ℚ) :
    (update_fps s t).frame_times =
      (s.frame_times ++ [t]).drop ((s.frame_times.length + 1) - 60) ∧
    (update_fps s t).frame_times.length = min (s.frame_times.length + 1) 60 ∧
    (update_fps s t).frame_times.length ≤ 60 ∧
    (update_fps s t).frame_count = s.frame_count + 1 := by
  have hft : (update_fps s t).frame_times =
      (s.frame_times ++ [t]).drop ((s.frame_times.length + 1) - 60) := by
    simp only [update_fps]
    by_cases h : (s.frame_times ++ [t]).length > 60
    · rw [if_pos h]
      simp
    · rw [if_neg h]
      simp only [List.length_append, List.length_singleton, gt_iff_lt, not_lt] at h
      have h0 : s.frame_times.length + 1 - 60 = 0 := by omega
      rw [h0, List.drop_zero]
  have hlen : (update_fps s t).frame_times.length = min (s.frame_times.length + 1) 60 := by
    rw [hft]
    simp only [List.length_drop, List.length_append, List.length_singleton]
    omega
  exact ⟨hft, hlen, by omega, rfl⟩

/-- **C9.** `reset_stats` empties the rolling window and zeroes both
counters, and leaves the `monitoring` flag unchanged. -/
theorem reset_stats_spec (s : PerformanceMonitor) (now : ℚ) :
    (reset_stats s now).frame_times = [] ∧
    (reset_stats s now).frame_count = 0 ∧
    (reset_stats s now).detection_count = 0 ∧
    (reset_stats s now).monitoring = s.monitoring := by
  refine ⟨rfl, rfl, rfl, rfl⟩

/-- **C7.** `get_current_fps` (called with the lock free) returns
`(countInWindow - 1) / (newest - oldest)` whenever the window holds at
least 2 samples with newest strictly greater than oldest, and returns
0 when it holds fewer than 2 samples. -/
theorem get_current_fps_spec (s : PerformanceMonitor) :
    (2 ≤ s.frame_times.length → s.frame_times.headD 0 < s.frame_times.getLastD 0 →
      get_current_fps s false =
        some (((s.frame_times.length - 1 : ℕ) : ℚ) /
          (s.frame_times.getLastD 0 - s.frame_times.headD 0))) ∧
    (s.frame_times.length < 2 → get_current_fps s false = some 0) := by
  constructor
  · intro h2 hlt
    have hnot : ¬ s.frame_times.length < 2 := by omega
    have hspan : ¬ (s.frame_times.getLastD 0 - s.frame_times.headD 0 ≤ 0) := by linarith
    unfold get_current_fps
    rw [if_neg Bool.false_ne_true, if_neg hnot, if_neg hspan]
  · intro h2
    unfold get_current_fps
    rw [if_neg Bool.false_ne_true, if_pos h2]

/-- A monitor whose window holds three samples spaced 0.1 s apart, as
after three `update_fps` calls at that pace. -/
def pmExample : PerformanceMonitor :=
  { start_time := 0
    frame_times := [0, 1/10, 1/5]
    last_frame_time := 1/5
    frame_count := 3
    detection_count := 0
    monitoring := false }

/-- Witness for C7: frames recorded at fixed 0.1 s spacing
(`[0, 0.1, 0.2]`) give `get_current_fps` = (3 - 1) / 0.2 = 10. -/
theorem get_current_fps_spec_witness :
    2 ≤ pmExample.frame_times.length ∧
    get_current_fps pmExample false = some 10 := by
  have h2 : 2 ≤ pmExample.frame_times.length := by norm_num [pmExample]
  have hlt : pmExample.frame_times.headD 0 < pmExample.frame_times.getLastD 0 := by
    norm_num [pmExample]
  have h := (get_current_fps_spec pmExample).1 h2 hlt
  rw [h]
  refine ⟨h2, ?_⟩
  norm_num [pmExample]

/-- **C3** (code bug).  `get_performance_summary` never returns: with
the lock free it acquires `self.lock` and then calls
`get_current_fps`, which blocks forever re-acquiring the same
non-reentrant lock; with the lock held it blocks at once.  (Had it
returned, its dictionary would in any case carry only the fps and the
detection total, not the frame count.) -/
theorem get_performance_summary_deadlocks (s : PerformanceMonitor) (lockHeld : Bool) :
    get_performance_summary s lockHeld = none := by
  unfold get_performance_summary get_current_fps
  cases lockHeld <;> simp

end BarQr

namespace BarQr

/-! ## ROISelector (src/core/camera.py) -/

/-- The mouse events `mouse_callback` distinguishes.  `otherEvent`
stands for any OpenCV event it does not handle. -/
inductive MouseEvent where
  | lbuttondown
  | mousemove
  | lbuttonup
  | otherEvent
  deriving Repr, DecidableEq

/-- State of `ROISelector`: live anchor point, live end point, the
`selecting` flag and the committed region `roi = (x, y, w, h)`. -/
structure ROISelector where
  start_point : Option (ℤ × ℤ)
  end_point : Option (ℤ × ℤ)
  selecting : Bool
  roi : Option (ℤ × ℤ × ℤ × ℤ)
  deriving Repr, DecidableEq

/-- `ROISelector.__init__`. -/
def ROISelector.init : ROISelector :=
  { start_point := none, end_point := none, selecting := false, roi := none }

/-- `ROISelector.mouse_callback` (the `flags`/`param` arguments are
unused by the source).  A Python tuple such as `(0, 0)` is truthy, so
`if self.start_point and self.end_point` tests only that neither point
is `None`; on `LBUTTONUP` the end point has just been set, so the test
amounts to the anchor being present. -/
def mouse_callback (s : ROISelector) (event : MouseEvent) (x y : ℤ) : ROISelector :=
  match event with
  | .lbuttondown => { s with start_point := some (x, y), selecting := true }
  | .mousemove => if s.selecting then { s with end_point := some (x, y) } else s
  | .lbuttonup =>
      let s := { s with end_point := some (x, y), selecting := false }
      match s.start_point, s.end_point with
      | some (x1, y1), some (x2, y2) =>
          { s with roi := some (min x1 x2, min y1 y2, |x2 - x1|, |y2 - y1|) }
      | _, _ => s
  | .otherEvent => s

/-- `ROISelector.reset`. -/
def ROISelector.reset (_s : ROISelector) : ROISelector :=
  { start_point := none, end_point := none, selecting := false, roi := none }

/-! ### Claims about ROISelector -/

/-- **C6.** Whatever state the selector is in, if its anchor is
`(x1, y1)` (as recorded by the pointer-down that started the drag, and
untouched by any intervening pointer-move), a pointer-up at `(x2, y2)`
commits the region `(min x1 x2, min y1 y2, |x2-x1|, |y2-y1|)`; hence
the width and height are non-negative and swapping the two endpoints
commits the same region. -/
theorem mouse_callback_up_commits (s s' : ROISelector) (x1 y1 x2 y2 : ℤ)
    (h : s.start_point = some (x1, y1)) (h' : s'.start_point = some (x2, y2)) :
    (mouse_callback s .lbuttonup x2 y2).roi =
      some (min x1 x2, min y1 y2, |x2 - x1|, |y2 - y1|) ∧
    (mouse_callback s .lbuttonup x2 y2).roi = (mouse_callback s' .lbuttonup x1 y1).roi ∧
    (0 : ℤ) ≤ |x2 - x1| ∧ (0 : ℤ) ≤ |y2 - y1| := by
  have e1 : (mouse_callback s .lbuttonup x2 y2).roi =
      some (min x1 x2, min y1 y2, |x2 - x1|, |y2 - y1|) := by
    unfold mouse_callback
    rw [h]
  have e2 : (mouse_callback s' .lbuttonup x1 y1).roi =
      some (min x2 x1, min y2 y1, |x1 - x2|, |y1 - y2|) := by
    unfold mouse_callback
    rw [h']
  refine ⟨e1, ?_, abs_nonneg _, abs_nonneg _⟩
  rw [e1, e2, min_comm x1 x2, min_comm y1 y2, abs_sub_comm x2 x1, abs_sub_comm y2 y1]

/-- Witness for C6: dragging from (50,50) to (10,10) and from (10,10)
to (50,50) both commit the region (10, 10, 40, 40). -/
theorem mouse_callback_up_commits_witness :
    (mouse_callback ROISelector.init .lbuttondown 50 50).start_point = some (50, 50) ∧
    (mouse_callback ROISelector.init .lbuttondown 10 10).start_point = some (10, 10) ∧
    (mouse_callback (mouse_callback ROISelector.init .lbuttondown 50 50)
        .lbuttonup 10 10).roi = some (10, 10, 40, 40) ∧
    (mouse_callback (mouse_callback ROISelector.init .lbuttondown 50 50) .lbuttonup 10 10).roi =
      (mouse_callback (mouse_callback ROISelector.init .lbuttondown 10 10)
        .lbuttonup 50 50).roi := by
  have h := mouse_callback_up_commits
    (mouse_callback ROISelector.init .lbuttondown 50 50)
    (mouse_callback ROISelector.init .lbuttondown 10 10)
    50 50 10 10 (by decide) (by decide)
  exact ⟨by decide, by decide, by rw [h.1]; decide, h.2.1⟩

/-- **C10.** A pointer-up with no previously recorded anchor commits
nothing: the region is unchanged (in particular it stays absent), the
event's point is recorded as the live end point, and the `selecting`
flag is cleared. -/
theorem mouse_callback_up_no_anchor (s : ROISelector) (x y : ℤ)
    (h : s.start_point = none) :
    (mouse_callback s .lbuttonup x y).roi = s.roi ∧
    (mouse_callback s .lbuttonup x y).end_point = some (x, y) ∧
    (mouse_callback s .lbuttonup x y).selecting = false := by
  unfold mouse_callback
  rw [h]
  exact ⟨rfl, rfl, rfl⟩

/-- Witness for C10: a pointer-up delivered to a freshly constructed
selector leaves the committed region absent. -/
theorem mouse_callback_up_no_anchor_witness :
    ROISelector.init.start_point = none ∧
    (mouse_callback ROISelector.init .lbuttonup 7 9).roi = none ∧
    (mouse_callback ROISelector.init .lbuttonup 7 9).end_point = some (7, 9) ∧
    (mouse_callback ROISelector.init .lbuttonup 7 9).selecting = false := by
  have h := mouse_callback_up_no_anchor ROISelector.init 7 9 (by decide)
  exact ⟨by decide, h.1, h.2.1, h.2.2⟩

end BarQr

namespace BarQr

/-! ## CameraManager (src/core/camera.py)

The OpenCV device layer is opaque; it is modelled by an environment
saying, per device index, whether `cv2.VideoCapture(idx)` opens and
whether `cap.read()` succeeds. -/

/-- A `cv2.VideoCapture` object: whether the device opened, whether
reads succeed, and whether `release()` has been called on it. -/
structure VideoCapture where
  opened : Bool
  readOK : Bool
  released : Bool
  deriving Repr, DecidableEq

/-- `cap.isOpened()`: true until the capture is released. -/
def VideoCapture.isOpened (c : VideoCapture) : Bool :=
  c.opened && !c.released

/-- Behaviour of the device layer for each camera index. -/
structure CameraEnv where
  openOK : ℤ → Bool
  readOK : ℤ → Bool

/-- `cv2.VideoCapture(idx)` in environment `env`. -/
def CameraEnv.videoCapture (env : CameraEnv) (idx : ℤ) : VideoCapture :=
  { opened := env.openOK idx, readOK := env.readOK idx, released := false }

/-- State of `CameraManager`.  The frame queue, capture thread, FPS
counter, frame callback and frame-geometry fields are omitted: no
verified claim depends on them. -/
structure CameraManager where
  camera_index : ℤ
  cap : Option VideoCapture
  is_running : Bool
  deriving Repr, DecidableEq

/-- `CameraManager.__init__(camera_index)`. -/
def CameraManager.init (camera_index : ℤ) : CameraManager :=
  { camera_index := camera_index, cap := none, is_running := false }

/-- `initialize_camera`: assigns `self.cap = cv2.VideoCapture(idx)`;
returns `False` if `isOpened()` fails (without releasing and without
clearing `self.cap`); otherwise applies the property settings
(best-effort, no observable state here), performs the test read, and on
read failure calls `self.cap.release()` — leaving `self.cap` pointing
at the released object — and returns `False`; else returns `True`. -/
def initialize_camera (env : CameraEnv) (s : CameraManager) : Bool × CameraManager :=
  let cap := env.videoCapture s.camera_index
  if !cap.isOpened then (false, { s with cap := some cap })
  else if !cap.readOK then (false, { s with cap := some { cap with released := true } })
  else (true, { s with cap := some cap })

/-- `start_capture`: if `self.cap` is absent or not open it calls
`initialize_camera`, and **raises** `RuntimeError("Failed to initialize
camera")` when that returns `False`; otherwise it sets `is_running` and
spawns the capture thread (the thread itself is not modelled).
`Except.error` models the raised exception. -/
def start_capture (env : CameraEnv) (s : CameraManager) : Except String CameraManager :=
  let needInit :=
    match s.cap with
    | none => true
    | some c => !c.isOpened
  if needInit then
    match initialize_camera env s with
    | (false, _) => Except.error "Failed to initialize camera"
    | (true, s') => Except.ok { s' with is_running := true }
  else Except.ok { s with is_running := true }

/-- `stop_capture`: clears the running flag, joins the thread (not
modelled), and if a capture is retained releases it and sets
`self.cap = None`. -/
def stop_capture (s : CameraManager) : CameraManager :=
  { s with is_running := false, cap := none }

/-- `is_camera_active`: `self.is_running and self.cap and
self.cap.isOpened()`. -/
def is_camera_active (s : CameraManager) : Bool :=
  s.is_running &&
    (match s.cap with
     | none => false
     | some c => c.isOpened)

end BarQr

namespace BarQr

/-! ### Claims about CameraManager -/

/-- **C4** as stated is false: on failure `initialize_camera` does
return `False`, but `self.cap` still references the `VideoCapture`
object afterwards — it is never cleared to `None`.  Counterexample:
a camera manager on device index -1 in an environment where no device
opens. -/
theorem initialize_camera_retains_handle :
    (initialize_camera ⟨fun _ => false, fun _ => false⟩ (CameraManager.init (-1))).1 = false ∧
    (initialize_camera ⟨fun _ => false, fun _ => false⟩ (CameraManager.init (-1))).2.cap ≠
      none := by
  refine ⟨rfl, ?_⟩
  unfold initialize_camera
  simp [CameraEnv.videoCapture, VideoCapture.isOpened, CameraManager.init]

/-- **C4 amended.** If opening the device or the test read fails,
`initialize_camera` returns `False`, leaves `is_running` untouched (so
the component never appears active), and any capture object it retains
in `self.cap` is not open afterwards — released when the test read
failed, never successfully opened otherwise — but the handle itself is
still referenced by the component rather than cleared to `None`. -/
theorem initialize_camera_failure (env : CameraEnv) (s : CameraManager)
    (h : env.openOK s.camera_index = false ∨ env.readOK s.camera_index = false) :
    (initialize_camera env s).1 = false ∧
    (initialize_camera env s).2.is_running = s.is_running ∧
    (∀ c, (initialize_camera env s).2.cap = some c → c.isOpened = false) ∧
    (initialize_camera env s).2.cap ≠ none := by
  rcases ho : env.openOK s.camera_index with _ | _ <;>
    rcases hr : env.readOK s.camera_index with _ | _ <;>
    simp_all [initialize_camera, CameraEnv.videoCapture, VideoCapture.isOpened]

/-- Witness for C4 amended: on device index -1 with no device opening,
initialization fails, the component is not running, and the retained
capture is not open. -/
theorem initialize_camera_failure_witness :
    ((⟨fun _ => false, fun _ => false⟩ : CameraEnv).openOK
        (CameraManager.init (-1)).camera_index = false ∨
      (⟨fun _ => false, fun _ => false⟩ : CameraEnv).readOK
        (CameraManager.init (-1)).camera_index = false) ∧
    (initialize_camera ⟨fun _ => false, fun _ => false⟩ (CameraManager.init (-1))).1 = false ∧
    (initialize_camera ⟨fun _ => false, fun _ => false⟩
      (CameraManager.init (-1))).2.is_running = false := by
  have h := initialize_camera_failure ⟨fun _ => false, fun _ => false⟩
    (CameraManager.init (-1)) (Or.inl rfl)
  exact ⟨Or.inl rfl, h.1, h.2.1⟩

/-- **C5** as stated is false: `start_capture` raises
`RuntimeError("Failed to initialize camera")` — modelled as
`Except.error` — when the device is not open and initialization fails.
Counterexample: a fresh manager on device index -1 in an environment
where no device opens. -/
theorem start_capture_raises :
    start_capture ⟨fun _ => false, fun _ => false⟩ (CameraManager.init (-1)) =
      Except.error "Failed to initialize camera" := by
  rfl

/-- **C5 amended.**  `start_capture` raises (returns an error) exactly
when the retained capture is absent or not open and `initialize_camera`
returns failure; in every other situation it returns normally with the
running flag set.  (`initialize_camera` itself and the capture loop
surface device failures as a boolean result resp. a terminated loop.) -/
theorem start_capture_error_iff (env : CameraEnv) (s : CameraManager) :
    (start_capture env s = Except.error "Failed to initialize camera" ↔
      ((∀ c, s.cap = some c → c.isOpened = false) ∧ (initialize_camera env s).1 = false)) ∧
    (∀ e, start_capture env s = Except.error e → e = "Failed to initialize camera") := by
  rcases hinit : initialize_camera env s with ⟨ok, s'⟩
  rcases hcap : s.cap with _ | c
  · cases ok <;> simp_all [start_capture]
  · by_cases hop : c.isOpened = true
    · simp_all [start_capture]
    · rw [Bool.not_eq_true] at hop
      cases ok <;> simp_all [start_capture]

/-- Witness for C5 amended: on a fresh manager for device index -1 in
an environment with no openable device, the error characterization
instantiates to the concrete raised `RuntimeError`. -/
theorem start_capture_error_iff_witness :
    ((∀ c, (CameraManager.init (-1)).cap = some c → c.isOpened = false) ∧
      (initialize_camera ⟨fun _ => false, fun _ => false⟩ (CameraManager.init (-1))).1 =
        false) ∧
    start_capture ⟨fun _ => false, fun _ => false⟩ (CameraManager.init (-1)) =
      Except.error "Failed to initialize camera" := by
  have h := (start_capture_error_iff ⟨fun _ => false, fun _ => false⟩
    (CameraManager.init (-1))).1
  have hcap : ∀ c, (CameraManager.init (-1)).cap = some c → c.isOpened = false := by
    intro c hc
    simp [CameraManager.init] at hc
  exact ⟨⟨hcap, rfl⟩, h.mpr ⟨hcap, rfl⟩⟩

end BarQr

namespace BarQr

/-! ## OpenCVDetector (src/core/opencv_detector.py)

The decode back-ends are opaque capability providers; `detect_codes`
is embedded as a function of what each back-end returned on the
(cropped) image:

* `singleData`, `singlePoints` — the `data, points, _` returned by
  `qr_detector.detectAndDecode` (`points` is `None` or one quad);
* `multiQR` — `none` when `detectAndDecodeMulti` reported no success
  (or the QR `try` block raised), otherwise the zipped
  `(decoded_info, points_array)` pairs;
* `barcodes` — `none` when `pyzbar` is not importable or raised,
  otherwise the decoded symbols.

Wall-clock decode latency (`detection_time`) carries no verified
property and is omitted from the embedded record; all other fields of
the `DetectionResult` dataclass are kept. -/

/-- The `DetectionResult` dataclass (minus the wall-clock
`detection_time` field). -/
structure DetectionResult where
  data : String
  type : String
  rect : ℤ × ℤ × ℤ × ℤ
  polygon : List (ℤ × ℤ)
  confidence : ℚ
  deriving Repr, DecidableEq

/-- A symbol decoded by `pyzbar.decode` on the (cropped) image:
payload bytes decoded to a string, symbology type, `rect` and
(possibly empty) `polygon`, all in cropped-image coordinates. -/
structure ZbarCode where
  data : String
  type : String
  rect : ℤ × ℤ × ℤ × ℤ
  polygon : List (ℤ × ℤ)
  deriving Repr, DecidableEq

/-- `roi_offset`: `(x, y)` of the region if one was given (any region
tuple is truthy in Python), else `(0, 0)`. -/
def roiOffset (roi : Option (ℤ × ℤ × ℤ × ℤ)) : ℤ × ℤ :=
  match roi with
  | some (x, y, _, _) => (x, y)
  | none => (0, 0)

/-- Result built in both OpenCV QR branches: each decoded point gets
the ROI offset added, and the rect is the bounding box of the offset
polygon.  Confidence is the fixed nominal 0.9.  (`minimum?.getD 0`
stands for Python's `min(...)`, which is only reached on the nonempty
quads the OpenCV API yields.) -/
def mkQRResult (off : ℤ × ℤ) (data : String) (pts : List (ℤ × ℤ)) : DetectionResult :=
  let polygon := pts.map (fun p => (p.1 + off.1, p.2 + off.2))
  let xs := polygon.map Prod.fst
  let ys := polygon.map Prod.snd
  let x := xs.min?.getD 0
  let y := ys.min?.getD 0
  { data := data
    type := "QRCODE"
    rect := (x, y, xs.max?.getD 0 - x, ys.max?.getD 0 - y)
    polygon := polygon
    confidence := 9/10 }

/-- The `detectAndDecode` branch: fires when `data` is truthy and
`points is not None`. -/
def qrSingleResults (off : ℤ × ℤ) (singleData : String)
    (singlePoints : Option (List (ℤ × ℤ))) : List DetectionResult :=
  match singlePoints with
  | some pts => if singleData = "" then [] else [mkQRResult off singleData pts]
  | none => []

/-- Python's `len(data.strip()) > 0`: `strip()` drops leading and
trailing whitespace, so the stripped string is nonempty exactly when
some character is not whitespace. -/
def stripNonempty (s : String) : Bool :=
  s.toList.any (fun c => !c.isWhitespace)

/-- One iteration of the `detectAndDecodeMulti` loop: skip blank
payloads (`data and len(data.strip()) > 0`) and payloads already in
`results`; otherwise append the offset result. -/
def qrMultiStep (off : ℤ × ℤ) (acc : List DetectionResult)
    (p : String × List (ℤ × ℤ)) : List DetectionResult :=
  if p.1 ≠ "" ∧ stripNonempty p.1 = true then
    if acc.any (fun r => r.data == p.1) then acc
    else acc ++ [mkQRResult off p.1 p.2]
  else acc

/-- Result built in the pyzbar branch.  The polygon falls back to the
rect's corners when pyzbar reports none.  **Note: no `roi_offset` is
added in this branch of the source.** -/
def mkZbarResult (b : ZbarCode) : DetectionResult :=
  let (x, y, w, h) := b.rect
  { data := b.data
    type := b.type
    rect := b.rect
    polygon :=
      if b.polygon.isEmpty then [(x, y), (x + w, y), (x + w, y + h), (x, y + h)]
      else b.polygon
    confidence := 9/10 }

/-- One iteration of the pyzbar loop: append unless the payload is
already present. -/
def zbarStep (acc : List DetectionResult) (b : ZbarCode) : List DetectionResult :=
  if acc.any (fun r => r.data == b.data) then acc
  else acc ++ [mkZbarResult b]

/-- `OpenCVDetector.detect_codes`, as a function of the back-ends'
outputs on the cropped image (the crop `image[y:y+h, x:x+w]` itself
is what the back-ends consume and is not modelled beyond that).  The
only state effect of the source, `detection_history.extend(results)`,
is the returned list appended to the history by the caller of this
pure embedding. -/
def detect_codes (roi : Option (ℤ × ℤ × ℤ × ℤ)) (singleData : String)
    (singlePoints : Option (List (ℤ × ℤ)))
    (multiQR : Option (List (String × List (ℤ × ℤ))))
    (barcodes : Option (List ZbarCode)) : List DetectionResult :=
  let off := roiOffset roi
  let results := qrSingleResults off singleData singlePoints
  let results :=
    match multiQR with
    | some pairs => pairs.foldl (qrMultiStep off) results
    | none => results
  match barcodes with
  | some bs => bs.foldl zbarStep results
  | none => results

end BarQr

namespace BarQr

/-! ### Claims about OpenCVDetector -/

/-- Payload of a QR result is the decoded string. -/
theorem mkQRResult_data (off : ℤ × ℤ) (data : String) (pts : List (ℤ × ℤ)) :
    (mkQRResult off data pts).data = data := rfl

/-- Payload of a pyzbar result is the decoded string. -/
theorem mkZbarResult_data (b : ZbarCode) : (mkZbarResult b).data = b.data := by
  unfold mkZbarResult
  rcases b with ⟨data, ty, ⟨x, y, w, h⟩, poly⟩
  rfl

/-- Each loop iteration either leaves the accumulator unchanged or
appends one result whose payload differs from every accumulated one;
such a step preserves pairwise-distinct payloads under `foldl`. -/
theorem foldl_step_pairwise {β : Type} (step : List DetectionResult → β → List DetectionResult)
    (hstep : ∀ acc b, step acc b = acc ∨
      ∃ r, step acc b = acc ++ [r] ∧ ∀ a ∈ acc, a.data ≠ r.data)
    (l : List β) (acc : List DetectionResult)
    (h : acc.Pairwise (fun a b => a.data ≠ b.data)) :
    (l.foldl step acc).Pairwise (fun a b => a.data ≠ b.data) := by
  induction l generalizing acc with
  | nil => exact h
  | cons b l ih =>
      simp only [List.foldl_cons]
      apply ih
      rcases hstep acc b with heq | ⟨r, heq, hr⟩
      · rw [heq]
        exact h
      · rw [heq, List.pairwise_append]
        refine ⟨h, List.pairwise_singleton _ _, ?_⟩
        intro a ha r' hr'
        rw [List.mem_singleton] at hr'
        subst hr'
        exact hr a ha

/-- `qrMultiStep` satisfies the step condition of
`foldl_step_pairwise`. -/
theorem qrMultiStep_spec (off : ℤ × ℤ) (acc : List DetectionResult)
    (p : String × List (ℤ × ℤ)) :
    qrMultiStep off acc p = acc ∨
      ∃ r, qrMultiStep off acc p = acc ++ [r] ∧ ∀ a ∈ acc, a.data ≠ r.data := by
  unfold qrMultiStep
  by_cases hcond : p.1 ≠ "" ∧ stripNonempty p.1 = true
  · rw [if_pos hcond]
    rcases hany : acc.any (fun r => r.data == p.1) with _ | _
    · right
      refine ⟨mkQRResult off p.1 p.2, by simp, ?_⟩
      intro a ha
      have := List.any_eq_false.mp hany a ha
      rw [mkQRResult_data]
      simpa using this
    · left
      simp
  · rw [if_neg hcond]
    exact Or.inl rfl

/-- `zbarStep` satisfies the step condition of
`foldl_step_pairwise`. -/
theorem zbarStep_spec (acc : List DetectionResult) (b : ZbarCode) :
    zbarStep acc b = acc ∨
      ∃ r, zbarStep acc b = acc ++ [r] ∧ ∀ a ∈ acc, a.data ≠ r.data := by
  unfold zbarStep
  rcases hany : acc.any (fun r => r.data == b.data) with _ | _
  · right
    refine ⟨mkZbarResult b, by simp, ?_⟩
    intro a ha
    have := List.any_eq_false.mp hany a ha
    rw [mkZbarResult_data]
    simpa using this
  · left
    simp

/-- The single-QR branch alone yields pairwise-distinct payloads
(it appends at most one result). -/
theorem qrSingleResults_pairwise (off : ℤ × ℤ) (singleData : String)
    (singlePoints : Option (List (ℤ × ℤ))) :
    (qrSingleResults off singleData singlePoints).Pairwise
      (fun a b => a.data ≠ b.data) := by
  rcases singlePoints with _ | pts
  · exact List.Pairwise.nil
  · show List.Pairwise (fun a b => a.data ≠ b.data)
      (if singleData = "" then [] else [mkQRResult off singleData pts])
    by_cases h : singleData = ""
    · rw [if_pos h]
      exact List.Pairwise.nil
    · rw [if_neg h]
      exact List.pairwise_singleton _ _

/-- Example pyzbar output used as concrete input below. -/
def zbarExample : ZbarCode :=
  { data := "BAR"
    type := "CODE128"
    rect := (5, 5, 10, 10)
    polygon := [(5, 5), (15, 5), (15, 15), (5, 15)] }

/-- A pyzbar output carrying the same payload as the QR back-ends in
the C2 size-1 scenario. -/
def zbarSamePayload : ZbarCode :=
  { data := "PAY"
    type := "QRCODE"
    rect := (0, 0, 10, 10)
    polygon := [(0, 0), (10, 0), (10, 10), (0, 10)] }

/-- **C2.** Every batch returned by `detect_codes` is payload-unique,
whichever back-ends contributed; in particular one payload (`"PAY"`)
found by the single-QR decoder, the multi-QR decoder and the pyzbar
decoder alike yields a batch of size 1. -/
theorem detect_codes_payload_unique :
    (∀ (roi : Option (ℤ × ℤ × ℤ × ℤ)) (singleData : String)
        (singlePoints : Option (List (ℤ × ℤ)))
        (multiQR : Option (List (String × List (ℤ × ℤ))))
        (barcodes : Option (List ZbarCode)),
      (detect_codes roi singleData singlePoints multiQR barcodes).Pairwise
        (fun a b => a.data ≠ b.data)) ∧
    (detect_codes none "PAY" (some [(0, 0), (10, 0), (10, 10), (0, 10)])
        (some [("PAY", [(0, 0), (10, 0), (10, 10), (0, 10)])])
        (some [zbarSamePayload])).length = 1 := by
  constructor
  · intro roi singleData singlePoints multiQR barcodes
    unfold detect_codes
    have h1 := qrSingleResults_pairwise (roiOffset roi) singleData singlePoints
    rcases multiQR with _ | pairs <;> rcases barcodes with _ | bs
    · exact h1
    · exact foldl_step_pairwise _ zbarStep_spec bs _ h1
    · exact foldl_step_pairwise _ (qrMultiStep_spec (roiOffset roi)) pairs _ h1
    · exact foldl_step_pairwise _ zbarStep_spec bs _
        (foldl_step_pairwise _ (qrMultiStep_spec (roiOffset roi)) pairs _ h1)
  · rfl

/-- **C1** (code bug).  With region `(10, 20, 100, 100)` the pyzbar
branch returns its coordinates unshifted — rect `(5, 5, 10, 10)` in
ROI-relative space instead of `(15, 25, 10, 10)` — while the OpenCV QR
branch on the same region does add the origin back.  The claim that
every back-end's coordinates are re-offset to full-frame space fails
on the pyzbar branch. -/
theorem detect_codes_pyzbar_offset_bug :
    detect_codes (some (10, 20, 100, 100)) "" none none (some [zbarExample]) =
      [{ data := "BAR", type := "CODE128", rect := (5, 5, 10, 10),
         polygon := [(5, 5), (15, 5), (15, 15), (5, 15)], confidence := 9/10 }] ∧
    detect_codes (some (10, 20, 100, 100)) "QR"
        (some [(5, 5), (15, 5), (15, 15), (5, 15)]) none none =
      [{ data := "QR", type := "QRCODE", rect := (15, 25, 10, 10),
         polygon := [(15, 25), (25, 25), (25, 35), (15, 35)], confidence := 9/10 }] := by
  exact ⟨rfl, rfl⟩

end BarQr


